import Mathlib

/-!
Verification development for the FastF1 MCP server's analysis tools
(`mcp_f1/server/tools/analysis.py`).

The file embeds, as Lean definitions, the pure data-shaping logic of the two
tool operations `compare_qualifying_laps` and `visualize_tyre_strategy`:

* the lap-time formatter (`format_lap_time` helper, lines 96-103, and the
  duplicated inline formatting of the top-10 table, lines 219-229);
* the tyre-stint segmentation loop of `visualize_tyre_strategy`
  (lines 324-339), here called `segment_stints` after the spec's name;
* the fallback tyre-colour table (lines 310-316) and its `.get` lookup with
  the gray default (line 338);
* the operation boundaries: the early data-validation returns and the
  whole-body exception handlers of both operations.

Durations are modelled as exact rationals giving the `total_seconds()` value;
Python's float `//`, `%` and `int()` are modelled by the corresponding exact
operations (`pyFloorDiv`, `pyMod`, `pyInt`).  Pandas frames are modelled as
lists of rows in frame order; `sort_values` is a stable sort, boolean-mask
filtering is `List.filter`, `.unique()` + `sorted(...)` is `dedup` +
ascending sort.
-/

/-! ## Python arithmetic primitives -/

/-- Python float floor-division `x // y`, on exact rationals: the result is the
floor, returned as a number (Python returns a float). -/
def pyFloorDiv (x y : ℚ) : ℚ := (⌊x / y⌋ : ℤ)

/-- Python float modulo `x % y`, on exact rationals: `x - y * (x // y)`; for a
positive `y` the result lies in `[0, y)`. -/
def pyMod (x y : ℚ) : ℚ := x - y * (⌊x / y⌋ : ℤ)

/-- Python `int(q)`: truncation toward zero. -/
def pyInt (q : ℚ) : ℤ := if 0 ≤ q then ⌊q⌋ else -⌊-q⌋

/-- Python's `f"{n:0wd}"` zero-padding of an integer to width `w`.  (In the
embedded code it is only applied to non-negative values: seconds and
milliseconds of a modulo with positive divisor.) -/
def zeroPad (w : Nat) (n : ℤ) : String :=
  let s := toString n
  if s.length < w then String.mk (List.replicate (w - s.length) '0') ++ s else s

/-! ## The lap-time formatter

`format_lap_time` (analysis.py lines 96-103).  The input is `none` for
Python `None` (no `total_seconds` attribute: the code falls back to
`str(lap_time)`, which for `None` is the string `"None"`), and `some t` for a
duration whose `total_seconds()` is `t`. -/

/-- The helper `format_lap_time` defined inside `compare_qualifying_laps`
(lines 96-103): `total_ms = total_seconds() * 1000`,
`minutes = int(total_ms // 60000)`, `seconds = int((total_ms % 60000) // 1000)`,
`milliseconds = int(total_ms % 1000)`, formatted
`f"{minutes}:{seconds:02d}.{milliseconds:03d}"`; a value without
`total_seconds` is returned as `str(lap_time)`. -/
def format_lap_time : Option ℚ → String
  | none => "None"
  | some t =>
    let total_ms : ℚ := t * 1000
    let minutes : ℤ := pyInt (pyFloorDiv total_ms 60000)
    let seconds : ℤ := pyInt (pyFloorDiv (pyMod total_ms 60000) 1000)
    let milliseconds : ℤ := pyInt (pyMod total_ms 1000)
    toString minutes ++ ":" ++ zeroPad 2 seconds ++ "." ++ zeroPad 3 milliseconds

/-- The duplicated inline lap-time formatting of the top-10 results table
(lines 219-229): if the value has `total_seconds` the same arithmetic as
`format_lap_time` is run (the surrounding `try` cannot fail on an exact
duration), otherwise `str(lap_time) if lap_time is not None else 'No Time'`;
an absent (`None`) duration therefore yields `"No Time"`. -/
def inline_time_str : Option ℚ → String
  | none => "No Time"
  | some t =>
    let total_ms : ℚ := t * 1000
    let minutes : ℤ := pyInt (pyFloorDiv total_ms 60000)
    let seconds : ℤ := pyInt (pyFloorDiv (pyMod total_ms 60000) 1000)
    let milliseconds : ℤ := pyInt (pyMod total_ms 1000)
    toString minutes ++ ":" ++ zeroPad 2 seconds ++ "." ++ zeroPad 3 milliseconds

/-- Modelled from the spec (§4.1): compute the total whole milliseconds,
rounding down any sub-millisecond remainder, then decompose by integer
division: `minutes = total_ms div 60000` (unpadded),
`seconds = (total_ms mod 60000) div 1000` zero-padded to width 2,
`milliseconds = total_ms mod 1000` zero-padded to width 3. -/
def format_duration_spec (t : ℚ) : String :=
  let total_ms : ℤ := ⌊t * 1000⌋
  let minutes : ℤ := total_ms / 60000
  let seconds : ℤ := total_ms % 60000 / 1000
  let milliseconds : ℤ := total_ms % 1000
  toString minutes ++ ":" ++ zeroPad 2 seconds ++ "." ++ zeroPad 3 milliseconds

/-! ## Tyre colours (lines 310-316 and 338) -/

/-- The `tyre_colors` dict literal of `visualize_tyre_strategy`
(lines 310-316). -/
def tyre_colors : List (String × String) :=
  [("SOFT", "#E8002D"),
   ("MEDIUM", "#FFED00"),
   ("HARD", "#FFFFFF"),
   ("INTERMEDIATE", "#00AA00"),
   ("WET", "#0080FF")]

/-- `tyre_colors.get(compound, '#808080')` (line 338).  A missing compound
cell (pandas `NaN`, modelled by `none`) is not a dict key, so it also gets the
gray default. -/
def tyre_colors_get : Option String → String
  | none => "#808080"
  | some c => ((tyre_colors.lookup c).getD "#808080")

/-! ## Lap records and stint segmentation (lines 322-344) -/

/-- One row of the laps frame restricted to the columns the stint loop reads:
`Driver`, `LapNumber`, `Stint`, `Compound`.  A missing `Compound` cell is
`none`. -/
structure LapRecord where
  driver : String
  lapNumber : Nat
  stint : Nat
  compound : Option String
deriving DecidableEq

/-- One entry of `stint_info` (lines 334-339). -/
structure StintInfo where
  start_lap : Nat
  laps_count : Nat
  compound : Option String
  color : String
deriving DecidableEq

/-- Row order used by `.sort_values('LapNumber')`. -/
def lapLE (a b : LapRecord) : Prop := a.lapNumber ≤ b.lapNumber

instance : DecidableRel lapLE := fun a b => Nat.decLe a.lapNumber b.lapNumber

instance : IsTotal LapRecord lapLE := ⟨fun a b => Nat.le_total a.lapNumber b.lapNumber⟩

instance : IsTrans LapRecord lapLE := ⟨fun _ _ _ => Nat.le_trans⟩

/-- Strict row order by lap number; antisymmetric (vacuously), which pins the
sorted order of a row list with pairwise distinct lap numbers. -/
def lapLT (a b : LapRecord) : Prop := a.lapNumber < b.lapNumber

instance : IsAntisymm LapRecord lapLT :=
  ⟨fun _ _ h h' => absurd h' (Nat.lt_asymm h)⟩

/-- `driver_laps.sort_values('LapNumber')` (line 324): a stable sort of the
rows by lap number. -/
def sort_values (laps : List LapRecord) : List LapRecord :=
  laps.insertionSort lapLE

/-- `sorted(driver_laps['Stint'].unique())` (line 327): the distinct stint
identifiers, ascending. -/
def stint_ids (driver_laps : List LapRecord) : List Nat :=
  ((driver_laps.map (fun r => r.stint)).dedup).insertionSort (· ≤ ·)

/-- The body of the stint loop (lines 328-339) for one stint's rows
(`stint_laps`, in frame order): `compound = stint_laps['Compound'].iloc[0]`,
`start_lap = stint_laps['LapNumber'].min()`,
`end_lap = stint_laps['LapNumber'].max()`,
`laps_count = int(end_lap - start_lap + 1)`, and the colour lookup.
`none` for an empty group (unreachable: every listed id occurs). -/
def stint_group_info : List LapRecord → Option StintInfo
  | [] => none
  | r :: rs =>
    let lapNums := rs.map (fun x => x.lapNumber)
    let start_lap := lapNums.foldl Nat.min r.lapNumber
    let end_lap := lapNums.foldl Nat.max r.lapNumber
    some { start_lap := start_lap
           laps_count := end_lap - start_lap + 1
           compound := r.compound
           color := tyre_colors_get r.compound }

/-- The stint loop of `visualize_tyre_strategy` run over an already sorted
`driver_laps` frame: for each distinct stint id ascending, the rows with that
id (`driver_laps[driver_laps['Stint'] == stint]`, in frame order) are
summarised by `stint_group_info`. -/
def stint_infos (driver_laps : List LapRecord) : List StintInfo :=
  (stint_ids driver_laps).filterMap
    (fun s => stint_group_info (driver_laps.filter (fun r => r.stint == s)))

/-- The stint segmenter (spec §4.2; code lines 324-339): sort one driver's lap
rows by lap number, then group by stint identifier. -/
def segment_stints (laps : List LapRecord) : List StintInfo :=
  stint_infos (sort_values laps)

/-! ## Operation boundaries (error handling)

Both tool functions wrap their whole body in `try ... except Exception as e:
return f"Error ...: {str(e)}..."`.  The external calls (session load,
telemetry, plotting, file output) are abstracted as `Except`-valued fields: an
`Except.error e` models an exception with text `str(e) = e` raised inside the
`try` block, an `Except.ok` models normal completion. -/

/-- f-string `f"Error: No results found for {year} {race} {session}"`
(lines 46 of analysis.py). -/
def no_results_message (year : Int) (race session : String) : String :=
  "Error: No results found for " ++ toString year ++ " " ++ race ++ " " ++ session

/-- f-string of line 49. -/
def insufficient_drivers_message (found : Nat) : String :=
  "Error: Insufficient drivers in session. Found " ++ toString found ++ ", need at least 3."

/-- f-string of line 289. -/
def no_lap_data_message (year : Int) (race session : String) : String :=
  "Error: No lap data found for " ++ toString year ++ " " ++ race ++ " " ++ session

/-- The literal of line 293. -/
def no_compound_message : String :=
  "Error: Tyre compound data not available for this session"

/-- Remediation hints appended by the `except` handler of
`compare_qualifying_laps` (line 261). -/
def compare_error_hints : String :=
  "\n\nPlease check:\n- Year and race name are correct\n- Session type is valid (Q, Q1, Q2, Q3)\n- Telemetry data is available for this session"

/-- Remediation hints appended by the `except` handler of
`visualize_tyre_strategy` (line 464). -/
def tyre_error_hints : String :=
  "\n\nPlease check:\n- Year and race name are correct\n- Session type is valid (R for race)\n- Tyre data is available for this session"

/-- Abstracted inputs of one `compare_qualifying_laps` call.  `load` is the
outcome of `fastf1.get_session` + `quali.load` + reading `quali.results`:
an exception, or `none` when the results attribute is missing or `None`, or
the list of result rows (content irrelevant here).  `rest` is the outcome of
the remainder of the `try` block (telemetry extraction, plotting, summary
building): an exception or the returned summary string. -/
structure CompareInput where
  year : Int
  race : String
  session : String
  load : Except String (Option (List Unit))
  rest : Except String String

/-- The `try` block of `compare_qualifying_laps` (lines 40-258): the two data
validations (lines 45-49) return early with an `Error:` string; otherwise the
rest of the body runs. -/
def compare_body (i : CompareInput) : Except String String := do
  let results ← i.load
  match results with
  | none => pure (no_results_message i.year i.race i.session)
  | some rs =>
    if rs.length = 0 then
      pure (no_results_message i.year i.race i.session)
    else if rs.length < 3 then
      pure (insufficient_drivers_message rs.length)
    else
      i.rest

/-- The whole operation `compare_qualifying_laps` (lines 23-261): the `try`
block, with any exception converted by the `except` handler of lines 260-261
into a text message. -/
def compare_qualifying_laps (i : CompareInput) : String :=
  match compare_body i with
  | Except.ok s => s
  | Except.error e =>
    "Error analyzing qualifying laps: " ++ e ++ compare_error_hints

/-- The loaded laps frame of `visualize_tyre_strategy`: the lap rows and the
frame's column names. -/
structure TyreData where
  laps : List LapRecord
  columns : List String

/-- Abstracted inputs of one `visualize_tyre_strategy` call, analogous to
`CompareInput`. -/
structure TyreInput where
  year : Int
  race : String
  session : String
  load : Except String TyreData
  rest : Except String String

/-- The `try` block of `visualize_tyre_strategy` (lines 280-461): the two data
validations (lines 288-293) return early; otherwise the rest of the body
runs. -/
def visualize_body (j : TyreInput) : Except String String := do
  let d ← j.load
  if d.laps.length = 0 then
    pure (no_lap_data_message j.year j.race j.session)
  else if "Compound" ∈ d.columns then
    j.rest
  else
    pure no_compound_message

/-- The whole operation `visualize_tyre_strategy` (lines 263-464), with the
`except` handler of lines 463-464. -/
def visualize_tyre_strategy (j : TyreInput) : String :=
  match visualize_body j with
  | Except.ok s => s
  | Except.error e =>
    "Error creating tyre strategy visualization: " ++ e ++ tyre_error_hints

/-- `beginsWith p s`: the string `s` starts with `p`. -/
def beginsWith (p s : String) : Bool := p.data.isPrefixOf s.data

/-! ## Specification predicate for stint tilings -/

/-- `covers c infos m`: the stints in `infos` tile the lap numbers from `c`
(inclusive) to `m` (exclusive) in order without gaps: each stint starts where
the previous one ended, is non-empty, and the last one ends at `m`. -/
def covers : Nat → List StintInfo → Nat → Prop
  | c, [], m => m = c
  | c, i :: is, m => i.start_lap = c ∧ 1 ≤ i.laps_count ∧ covers (c + i.laps_count) is m

/-! ## Arithmetic facts about the Python float operations on exact rationals -/

lemma floor_div_intCast (T : ℚ) (n : ℤ) (hn : 0 < n) :
    ⌊T / (n : ℚ)⌋ = ⌊T⌋ / n := by
  have hnQ : (0 : ℚ) < (n : ℚ) := by exact_mod_cast hn
  have hnz : n ≠ 0 := hn.ne'
  have hdm : n * (⌊T⌋ / n) + ⌊T⌋ % n = ⌊T⌋ := Int.ediv_add_emod _ _
  have hr0 : 0 ≤ ⌊T⌋ % n := Int.emod_nonneg _ hnz
  have hrn1 : ⌊T⌋ % n + 1 ≤ n := Int.lt_iff_add_one_le.mp (Int.emod_lt_of_pos _ hn)
  have hfl : ((⌊T⌋ : ℤ) : ℚ) ≤ T := Int.floor_le T
  have hfu : T < (⌊T⌋ : ℚ) + 1 := Int.lt_floor_add_one T
  have hdmQ : (n : ℚ) * ((⌊T⌋ / n : ℤ) : ℚ) + ((⌊T⌋ % n : ℤ) : ℚ) = (⌊T⌋ : ℚ) := by
    exact_mod_cast congrArg (fun z : ℤ => (z : ℚ)) hdm
  have hr0Q : (0 : ℚ) ≤ ((⌊T⌋ % n : ℤ) : ℚ) := by exact_mod_cast hr0
  have hrn1Q : ((⌊T⌋ % n : ℤ) : ℚ) + 1 ≤ (n : ℚ) := by exact_mod_cast hrn1
  rw [Int.floor_eq_iff]
  refine ⟨?_, ?_⟩
  · rw [le_div_iff₀ hnQ]
    nlinarith [hdmQ, hr0Q, hfl]
  · rw [div_lt_iff₀ hnQ]
    nlinarith [hdmQ, hrn1Q, hfu]

lemma pyInt_intCast (k : ℤ) : pyInt ((k : ℤ) : ℚ) = k := by
  unfold pyInt
  by_cases h : (0 : ℚ) ≤ (k : ℚ)
  · simp [h, Int.floor_intCast]
  · simp only [h, if_false]
    rw [← Int.cast_neg, Int.floor_intCast]
    ring

lemma pyMod_floor (T : ℚ) (n : ℤ) (hn : 0 < n) : ⌊pyMod T (n : ℚ)⌋ = ⌊T⌋ % n := by
  unfold pyMod
  have hc : (n : ℚ) * ((⌊T / (n : ℚ)⌋ : ℤ) : ℚ) = ((n * ⌊T / (n : ℚ)⌋ : ℤ) : ℚ) := by
    push_cast
    ring
  rw [hc, Int.floor_sub_int, floor_div_intCast T n hn, Int.emod_def]

lemma pyMod_nonneg (T : ℚ) (n : ℤ) (hn : 0 < n) : 0 ≤ pyMod T (n : ℚ) := by
  have hnQ : (0 : ℚ) < (n : ℚ) := by exact_mod_cast hn
  have h := Int.sub_floor_div_mul_nonneg T hnQ
  unfold pyMod
  nlinarith [h]

lemma pyInt_of_nonneg (q : ℚ) (h : 0 ≤ q) : pyInt q = ⌊q⌋ := by
  unfold pyInt
  simp [h]

/-- The source formatter agrees with the spec's whole-milliseconds
decomposition on every present duration. -/
lemma format_lap_time_eq_spec (t : ℚ) :
    format_lap_time (some t) = format_duration_spec t := by
  have h60000 : ((60000 : ℤ) : ℚ) = (60000 : ℚ) := by norm_num
  have h1000 : ((1000 : ℤ) : ℚ) = (1000 : ℚ) := by norm_num
  have hmin : pyInt (pyFloorDiv (t * 1000) 60000) = ⌊t * 1000⌋ / 60000 := by
    unfold pyFloorDiv
    rw [pyInt_intCast, ← h60000, floor_div_intCast _ _ (by norm_num)]
  have hms : pyInt (pyMod (t * 1000) 1000) = ⌊t * 1000⌋ % 1000 := by
    rw [pyInt_of_nonneg _ (by rw [← h1000]; exact pyMod_nonneg _ _ (by norm_num)),
      ← h1000, pyMod_floor _ _ (by norm_num)]
  have hsec : pyInt (pyFloorDiv (pyMod (t * 1000) 60000) 1000) = ⌊t * 1000⌋ % 60000 / 1000 := by
    unfold pyFloorDiv
    rw [pyInt_intCast, ← h1000, floor_div_intCast _ _ (by norm_num), ← h60000,
      pyMod_floor _ _ (by norm_num)]
  show toString (pyInt (pyFloorDiv (t * 1000) 60000)) ++ ":" ++
      zeroPad 2 (pyInt (pyFloorDiv (pyMod (t * 1000) 60000) 1000)) ++ "." ++
      zeroPad 3 (pyInt (pyMod (t * 1000) 1000)) = _
  rw [hmin, hsec, hms]
  rfl

/-! ## Stint segmentation: supporting lemmas -/

lemma foldl_min_of_le (init : Nat) (l : List Nat) (h : ∀ x ∈ l, init ≤ x) :
    l.foldl Nat.min init = init := by
  induction l generalizing init with
  | nil => rfl
  | cons a t ih =>
    have ha : Nat.min init a = init := Nat.min_eq_left (h a (List.mem_cons_self a t))
    simp only [List.foldl_cons, ha]
    exact ih init (fun x hx => h x (List.mem_cons_of_mem a hx))

lemma foldl_max_range' (k : Nat) : ∀ (b init : Nat),
    (List.range' b (k + 1)).foldl Nat.max init = Nat.max init (b + k) := by
  induction k with
  | zero =>
    intro b init
    show (List.range' b 1).foldl Nat.max init = Nat.max init (b + 0)
    rw [List.range'_succ]
    rfl
  | succ k ih =>
    intro b init
    rw [List.range'_succ]
    simp only [List.foldl_cons]
    rw [ih (b + 1) (Nat.max init b)]
    show max (max init b) (b + 1 + k) = max init (b + (k + 1))
    rw [max_assoc]
    congr 1
    rw [max_eq_right (by omega : b ≤ b + 1 + k)]
    omega

lemma stint_group_info_range (r : LapRecord) (rs : List LapRecord) (c m : Nat)
    (hlap : (r :: rs).map (fun x => x.lapNumber) = List.range' c (m + 1)) :
    stint_group_info (r :: rs) = some ⟨c, m + 1, r.compound, tyre_colors_get r.compound⟩ := by
  rw [List.map_cons, List.range'_succ] at hlap
  injection hlap with h1 h2
  have hmin : (rs.map (fun x => x.lapNumber)).foldl Nat.min r.lapNumber = c := by
    rw [h1, h2]
    apply foldl_min_of_le
    intro y hy
    rw [List.mem_range'] at hy
    obtain ⟨i, _, rfl⟩ := hy
    omega
  have hmax : (rs.map (fun x => x.lapNumber)).foldl Nat.max r.lapNumber = c + m := by
    rw [h1, h2]
    cases m with
    | zero => rfl
    | succ k =>
      rw [foldl_max_range' k (c + 1) c]
      show max c (c + 1 + k) = c + (k + 1)
      rw [max_eq_right (by omega : c ≤ c + 1 + k)]
      omega
  simp only [stint_group_info]
  rw [hmin, hmax]
  have hc : c + m - c + 1 = m + 1 := by omega
  rw [hc]

lemma stint_infos_covers : ∀ (N : Nat) (S : List LapRecord) (c : Nat),
    S.length ≤ N →
    S.map (fun r => r.lapNumber) = List.range' c S.length →
    (S.map (fun r => r.stint)).Chain' (· ≤ ·) →
    covers c (stint_infos S) (c + S.length) := by
  intro N
  induction N with
  | zero =>
    intro S c hlen _ _
    have hS : S = [] := List.length_eq_zero.mp (Nat.le_zero.mp hlen)
    subst hS
    show c + List.length ([] : List LapRecord) = c
    simp
  | succ N ih =>
    intro S c hlen hlap hmono
    match S with
    | [] =>
      show c + List.length ([] : List LapRecord) = c
      simp
    | x :: xs =>
      set s₀ := x.stint with hs₀
      set p : LapRecord → Bool := fun r => r.stint == s₀ with hp
      set A := List.takeWhile p (x :: xs) with hA
      set B := List.dropWhile p (x :: xs) with hB
      have hpx : p x = true := by rw [hp]; simp
      have hAB : A ++ B = x :: xs := List.takeWhile_append_dropWhile p (x :: xs)
      have hAcons : A = x :: List.takeWhile p xs := by
        rw [hA, List.takeWhile_cons_of_pos hpx]
      have hApos : 0 < A.length := by rw [hAcons]; simp
      have hA_all : ∀ r ∈ A, r.stint = s₀ := by
        intro r hr
        have h := List.mem_takeWhile_imp (hA ▸ hr)
        rw [hp] at h
        simpa [beq_iff_eq] using h
      have hPair : ((x :: xs).map (fun r => r.stint)).Pairwise (· ≤ ·) :=
        List.chain'_iff_pairwise.mp hmono
      have hPairRec : (x :: xs).Pairwise (fun a b => a.stint ≤ b.stint) :=
        List.pairwise_map.mp hPair
      have hx_le : ∀ r ∈ xs, x.stint ≤ r.stint := (List.pairwise_cons.mp hPairRec).1
      have hB_sub : B.Sublist (x :: xs) := hB ▸ List.dropWhile_sublist p
      have hPairB : B.Pairwise (fun a b => a.stint ≤ b.stint) := hPairRec.sublist hB_sub
      have hB_gt : ∀ r ∈ B, s₀ < r.stint := by
        cases hBc : B with
        | nil => intro r hr; cases hr
        | cons b bs =>
          have hpb : p b = false := by
            have h := List.head?_dropWhile_not p (x :: xs)
            rw [← hB, hBc] at h
            simpa using h
          have hbxs : b ∈ xs := by
            have hbS : b ∈ x :: xs := hB_sub.subset (hBc ▸ List.mem_cons_self b bs)
            rcases List.mem_cons.mp hbS with h | h
            · exfalso
              rw [h, hpx] at hpb
              cases hpb
            · exact h
          have hb_gt : s₀ < b.stint := by
            have hle := hx_le b hbxs
            have hne : ¬ b.stint = s₀ := by
              rw [hp] at hpb
              simpa [beq_iff_eq] using hpb
            omega
          intro r hr
          rcases List.mem_cons.mp hr with h | h
          · rw [h]; exact hb_gt
          · have hble : b.stint ≤ r.stint := (List.pairwise_cons.mp (hBc ▸ hPairB)).1 r h
            omega
      have hfilA : A.filter p = A := by
        rw [List.filter_eq_self]
        intro a ha
        rw [hp]
        simp [beq_iff_eq]
        exact hA_all a ha
      have hfilB : B.filter p = [] := by
        rw [List.filter_eq_nil_iff]
        intro b hb
        have h := hB_gt b hb
        rw [hp]
        simp [beq_iff_eq]
        omega
      have hfilS : (x :: xs).filter p = A := by
        rw [← hAB, List.filter_append, hfilA, hfilB, List.append_nil]
      have hlen_split : A.length + B.length = (x :: xs).length := by
        rw [← hAB, List.length_append]
      have hrange_split : List.range' c (A.length + B.length)
          = List.range' c A.length ++ List.range' (c + A.length) B.length := by
        have h := List.range'_append c A.length B.length 1
        simpa [Nat.add_comm] using h.symm
      have hsplit : A.map (fun r => r.lapNumber) ++ B.map (fun r => r.lapNumber)
          = List.range' c A.length ++ List.range' (c + A.length) B.length := by
        rw [← List.map_append, hAB, hlap, ← hlen_split, hrange_split]
      have hinj := List.append_inj hsplit (by rw [List.length_map, List.length_range'])
      obtain ⟨hlapA, hlapB⟩ := hinj
      have hmemB_gt : ∀ a ∈ (B.map (fun r => r.stint)).dedup, s₀ < a := by
        intro a ha
        rw [List.mem_dedup, List.mem_map] at ha
        obtain ⟨r, hr, rfl⟩ := ha
        exact hB_gt r hr
      have hnodupc : (s₀ :: (B.map (fun r => r.stint)).dedup).Nodup := by
        rw [List.nodup_cons]
        exact ⟨fun hmem => absurd (hmemB_gt s₀ hmem) (lt_irrefl s₀), List.nodup_dedup _⟩
      have hmem_iff : ∀ a, a ∈ ((x :: xs).map (fun r => r.stint)).dedup
          ↔ a ∈ s₀ :: (B.map (fun r => r.stint)).dedup := by
        intro a
        rw [List.mem_dedup, List.mem_cons, List.mem_dedup, ← hAB, List.map_append,
          List.mem_append]
        constructor
        · rintro (h | h)
          · left
            rw [List.mem_map] at h
            obtain ⟨r, hr, rfl⟩ := h
            exact hA_all r hr
          · right; exact h
        · rintro (rfl | h)
          · left
            rw [List.mem_map]
            exact ⟨x, by rw [hAcons]; exact List.mem_cons_self _ _, hs₀.symm⟩
          · right; exact h
      have hperm : List.Perm (((x :: xs).map (fun r => r.stint)).dedup)
          (s₀ :: (B.map (fun r => r.stint)).dedup) :=
        List.perm_of_nodup_nodup_toFinset_eq (List.nodup_dedup _) hnodupc
          (Finset.ext (fun a => by
            rw [List.mem_toFinset, List.mem_toFinset]
            exact hmem_iff a))
      have hids : stint_ids (x :: xs) = s₀ :: stint_ids B := by
        have hsort1 : List.Sorted (· ≤ ·) (stint_ids (x :: xs)) :=
          List.sorted_insertionSort _ _
        have hsort2 : List.Sorted (· ≤ ·) (s₀ :: stint_ids B) := by
          rw [List.sorted_cons]
          constructor
          · intro b hb
            have hb' : b ∈ (B.map (fun r => r.stint)).dedup :=
              (List.perm_insertionSort _ _).mem_iff.mp hb
            exact le_of_lt (hmemB_gt b hb')
          · exact List.sorted_insertionSort _ _
        have hpp : List.Perm (stint_ids (x :: xs)) (s₀ :: stint_ids B) := by
          unfold stint_ids
          exact (List.perm_insertionSort _ _).trans (hperm.trans
            (List.Perm.cons s₀ (List.perm_insertionSort _ _).symm))
        exact List.eq_of_perm_of_sorted hpp hsort1 hsort2
      have hfilB_eq : ∀ s ∈ stint_ids B,
          (x :: xs).filter (fun r => r.stint == s) = B.filter (fun r => r.stint == s) := by
        intro s hs
        have hsB : s₀ < s := by
          have h : s ∈ (B.map (fun r => r.stint)).dedup :=
            (List.perm_insertionSort _ _).mem_iff.mp hs
          exact hmemB_gt s h
        rw [← hAB, List.filter_append]
        have hAnil : A.filter (fun r => r.stint == s) = [] := by
          rw [List.filter_eq_nil_iff]
          intro a ha
          have h := hA_all a ha
          simp [beq_iff_eq]
          omega
        rw [hAnil, List.nil_append]
      obtain ⟨A', hA'⟩ : ∃ A', A = x :: A' := ⟨List.takeWhile p xs, hAcons⟩
      have hlenA : A.length = A'.length + 1 := by rw [hA']; rfl
      have hgroupA : stint_group_info A =
          some ⟨c, A.length, x.compound, tyre_colors_get x.compound⟩ := by
        have hlapA' : (x :: A').map (fun r => r.lapNumber) = List.range' c (A'.length + 1) := by
          rw [← hA', hlapA, hlenA]
        rw [hlenA, hA']
        exact stint_group_info_range x A' c A'.length hlapA'
      have hhead : stint_group_info ((x :: xs).filter (fun r => r.stint == s₀)) =
          some ⟨c, A.length, x.compound, tyre_colors_get x.compound⟩ := by
        rw [← hp, hfilS]
        exact hgroupA
      have hinfos : stint_infos (x :: xs) =
          (⟨c, A.length, x.compound, tyre_colors_get x.compound⟩ : StintInfo) :: stint_infos B := by
        unfold stint_infos
        rw [hids]
        simp only [List.filterMap_cons, hhead]
        congr 1
        apply List.filterMap_congr
        intro s hs
        rw [hfilB_eq s hs]
      have hmonoB : (B.map (fun r => r.stint)).Chain' (· ≤ ·) :=
        List.chain'_iff_pairwise.mpr (List.pairwise_map.mpr hPairB)
      have hlenB : B.length ≤ N := by
        have h1 : (x :: xs).length ≤ N + 1 := hlen
        omega
      have hIH := ih B (c + A.length) hlenB hlapB hmonoB
      rw [hinfos]
      refine ⟨rfl, hApos, ?_⟩
      have heq : c + A.length + B.length = c + (x :: xs).length := by omega
      rw [← heq]
      exact hIH

lemma covers_pairwise_starts : ∀ (l : List StintInfo) (c m : Nat), covers c l m →
    (∀ i ∈ l, c ≤ i.start_lap) ∧ l.Pairwise (fun a b => a.start_lap < b.start_lap) := by
  intro l
  induction l with
  | nil =>
    intro c m _
    exact ⟨fun i hi => absurd hi (List.not_mem_nil i), List.Pairwise.nil⟩
  | cons i is ih =>
    intro c m hc
    obtain ⟨hstart, hcnt, hrest⟩ := hc
    obtain ⟨hge, hpw⟩ := ih (c + i.laps_count) m hrest
    constructor
    · intro j hj
      rcases List.mem_cons.mp hj with h | h
      · rw [h, hstart]
      · have := hge j h
        omega
    · rw [List.pairwise_cons]
      refine ⟨fun j hj => ?_, hpw⟩
      have := hge j hj
      omega

lemma covers_chain : ∀ (l : List StintInfo) (c m : Nat), covers c l m →
    l.Chain' (fun a b => b.start_lap = a.start_lap + a.laps_count) := by
  intro l
  induction l with
  | nil => intro c m _; exact List.chain'_nil
  | cons i is ih =>
    intro c m hc
    obtain ⟨hstart, hcnt, hrest⟩ := hc
    cases is with
    | nil => exact List.chain'_singleton i
    | cons j js =>
      rw [List.chain'_cons]
      have hjstart := hrest.1
      exact ⟨by rw [hjstart, hstart], ih (c + i.laps_count) m hrest⟩

lemma covers_sum : ∀ (l : List StintInfo) (c m : Nat), covers c l m →
    c + (l.map (fun s => s.laps_count)).sum = m := by
  intro l
  induction l with
  | nil =>
    intro c m hc
    simpa using hc.symm
  | cons i is ih =>
    intro c m hc
    obtain ⟨_, _, hrest⟩ := hc
    have := ih (c + i.laps_count) m hrest
    simp only [List.map_cons, List.sum_cons]
    omega

lemma sorted_lapLT_of_nodup (l : List LapRecord)
    (hs : List.Sorted lapLE l) (hnd : (l.map (fun r => r.lapNumber)).Nodup) :
    List.Sorted lapLT l := by
  have hpw : l.Pairwise (fun a b => a.lapNumber ≠ b.lapNumber) := List.pairwise_map.mp hnd
  exact (hs.and hpw).imp (fun hab => Nat.lt_of_le_of_ne hab.1 hab.2)

lemma sort_values_perm_eq (l₁ l₂ : List LapRecord) (hperm : List.Perm l₁ l₂)
    (hnd : (l₂.map (fun r => r.lapNumber)).Nodup) :
    sort_values l₁ = sort_values l₂ := by
  have hp1 : List.Perm (sort_values l₁) l₁ := List.perm_insertionSort _ _
  have hp2 : List.Perm (sort_values l₂) l₂ := List.perm_insertionSort _ _
  have hpp : List.Perm (sort_values l₁) (sort_values l₂) :=
    (hp1.trans hperm).trans hp2.symm
  have hnd1 : ((sort_values l₁).map (fun r => r.lapNumber)).Nodup :=
    (List.Perm.nodup_iff (((hp1.trans hperm)).map _)).mpr hnd
  have hnd2 : ((sort_values l₂).map (fun r => r.lapNumber)).Nodup :=
    (List.Perm.nodup_iff (hp2.map _)).mpr hnd
  exact List.eq_of_perm_of_sorted hpp
    (sorted_lapLT_of_nodup _ (List.sorted_insertionSort _ _) hnd1)
    (sorted_lapLT_of_nodup _ (List.sorted_insertionSort _ _) hnd2)

/-! ## String prefix helpers -/

lemma isPrefixOf_append (l₁ l₂ l₃ : List Char) (h : l₁.isPrefixOf l₂ = true) :
    l₁.isPrefixOf (l₂ ++ l₃) = true := by
  induction l₁ generalizing l₂ with
  | nil =>
    cases l₂ ++ l₃ with
    | nil => rfl
    | cons b u => rfl
  | cons a t ih =>
    cases l₂ with
    | nil => simp [List.isPrefixOf] at h
    | cons b u =>
      simp only [List.isPrefixOf, List.cons_append, Bool.and_eq_true] at h ⊢
      exact ⟨h.1, ih u h.2⟩

lemma beginsWith_append (p s t : String) (h : beginsWith p s = true) :
    beginsWith p (s ++ t) = true := by
  unfold beginsWith at h ⊢
  rw [String.data_append]
  exact isPrefixOf_append _ _ _ h

lemma beginsWith_no_results (y : Int) (r s : String) :
    beginsWith "Error:" (no_results_message y r s) = true := by
  unfold no_results_message
  exact beginsWith_append _ _ _ (beginsWith_append _ _ _ (beginsWith_append _ _ _
    (beginsWith_append _ _ _ (beginsWith_append _ _ _ (by decide)))))

lemma beginsWith_insufficient (n : Nat) :
    beginsWith "Error:" (insufficient_drivers_message n) = true := by
  unfold insufficient_drivers_message
  exact beginsWith_append _ _ _ (beginsWith_append _ _ _ (by decide))

lemma beginsWith_no_lap_data (y : Int) (r s : String) :
    beginsWith "Error:" (no_lap_data_message y r s) = true := by
  unfold no_lap_data_message
  exact beginsWith_append _ _ _ (beginsWith_append _ _ _ (beginsWith_append _ _ _
    (beginsWith_append _ _ _ (beginsWith_append _ _ _ (by decide)))))

/-! ## Claims -/

/-- Claim C1 (amended): for every non-empty lap-record input for one driver
whose lap numbers, sorted ascending, form one contiguous run (no missing lap
numbers, no duplicates) and whose stint identifiers are non-decreasing with
lap number, the stints produced by the segmenter are sorted by `start_lap`
ascending, every consecutive pair satisfies
`next.start_lap = prev.start_lap + prev.laps_count`, and the `laps_count`
values sum to the number of distinct lap numbers of the input. -/
theorem segment_stints_wellformed_invariants (laps : List LapRecord) (c : Nat)
    (_hne : laps ≠ [])
    (hlap : (sort_values laps).map (fun r => r.lapNumber) = List.range' c laps.length)
    (hmono : ((sort_values laps).map (fun r => r.stint)).Pairwise (· ≤ ·)) :
    (segment_stints laps).Pairwise (fun a b => a.start_lap < b.start_lap) ∧
    (segment_stints laps).Chain' (fun a b => b.start_lap = a.start_lap + a.laps_count) ∧
    ((segment_stints laps).map (fun s => s.laps_count)).sum
      = ((laps.map (fun r => r.lapNumber)).dedup).length := by
  have hlensort : (sort_values laps).length = laps.length :=
    (List.perm_insertionSort lapLE laps).length_eq
  have hcov : covers c (stint_infos (sort_values laps)) (c + (sort_values laps).length) :=
    stint_infos_covers (sort_values laps).length (sort_values laps) c le_rfl
      (by rw [hlensort]; exact hlap) (List.chain'_iff_pairwise.mpr hmono)
  have hpm : List.Perm (laps.map (fun r => r.lapNumber))
      ((sort_values laps).map (fun r => r.lapNumber)) :=
    ((List.perm_insertionSort lapLE laps).map _).symm
  have hnd2 : ((sort_values laps).map (fun r => r.lapNumber)).Nodup := by
    rw [hlap]
    exact List.nodup_range' _ _
  have hnd : (laps.map (fun r => r.lapNumber)).Nodup := hpm.nodup_iff.mpr hnd2
  have hdedup : ((laps.map (fun r => r.lapNumber)).dedup).length = laps.length := by
    rw [hnd.dedup, List.length_map]
  have hsum := covers_sum _ _ _ hcov
  unfold segment_stints
  refine ⟨(covers_pairwise_starts _ _ _ hcov).2, covers_chain _ _ _ hcov, ?_⟩
  rw [hdedup]
  omega

/-- Claim C1, as frozen, fails on the code: with a gap in the lap numbers
(laps 1 and 3 of the same stint, lap 2 absent) the produced stint has
`laps_count = max - min + 1 = 3`, while the input holds only 2 distinct lap
numbers, so the sum of `laps_count` overshoots the distinct-lap count. -/
theorem segment_stints_gap_violation :
    ((segment_stints [⟨"VER", 1, 1, some "SOFT"⟩, ⟨"VER", 3, 1, some "SOFT"⟩]).map
        (fun s => s.laps_count)).sum
      ≠ (([⟨"VER", 1, 1, some "SOFT"⟩, ⟨"VER", 3, 1, some "SOFT"⟩] : List LapRecord).map
        (fun r => r.lapNumber)).dedup.length := by
  decide

/-- Claim C1 witness: the amended invariants hold at the spec's three-lap,
two-stint example, whose hypotheses are discharged by computation. -/
theorem segment_stints_wellformed_invariants_check :
    ((segment_stints [⟨"VER", 1, 1, some "SOFT"⟩, ⟨"VER", 2, 1, some "SOFT"⟩,
        ⟨"VER", 3, 2, some "MEDIUM"⟩]).map (fun s => s.laps_count)).sum
      = (([⟨"VER", 1, 1, some "SOFT"⟩, ⟨"VER", 2, 1, some "SOFT"⟩,
        ⟨"VER", 3, 2, some "MEDIUM"⟩] : List LapRecord).map
        (fun r => r.lapNumber)).dedup.length ∧
    (segment_stints [⟨"VER", 1, 1, some "SOFT"⟩, ⟨"VER", 2, 1, some "SOFT"⟩,
        ⟨"VER", 3, 2, some "MEDIUM"⟩]).Pairwise (fun a b => a.start_lap < b.start_lap) := by
  have h := segment_stints_wellformed_invariants
    [⟨"VER", 1, 1, some "SOFT"⟩, ⟨"VER", 2, 1, some "SOFT"⟩, ⟨"VER", 3, 2, some "MEDIUM"⟩]
    1 (by decide) (by decide) (by decide)
  exact ⟨h.2.2, h.1⟩

/-- Claim C2: for a permutation of one driver's lap records (which carry
pairwise distinct lap numbers), the segmenter returns the same stints as for
the input sorted by lap number ascending: it sorts before grouping, and the
sorted order is unique when lap numbers are distinct. -/
theorem segment_stints_perm_invariant (laps P : List LapRecord)
    (hnodup : (laps.map (fun r => r.lapNumber)).Nodup)
    (hperm : List.Perm P laps) :
    segment_stints P = segment_stints (sort_values laps) := by
  unfold segment_stints
  rw [sort_values_perm_eq P laps hperm hnodup,
    sort_values_perm_eq (sort_values laps) laps (List.perm_insertionSort _ _) hnodup]

/-- Claim C2 witness: the spec's unsorted example `[(lap=3), (lap=1), (lap=2)]`
yields the same stints as the sorted input. -/
theorem segment_stints_perm_invariant_check :
    segment_stints [⟨"VER", 3, 2, some "MEDIUM"⟩, ⟨"VER", 1, 1, some "SOFT"⟩,
        ⟨"VER", 2, 1, some "SOFT"⟩]
      = segment_stints (sort_values [⟨"VER", 1, 1, some "SOFT"⟩, ⟨"VER", 2, 1, some "SOFT"⟩,
        ⟨"VER", 3, 2, some "MEDIUM"⟩]) :=
  segment_stints_perm_invariant _ _ (by decide) (by decide)

/-- Claim C3: for an absent (None) duration the formatting path that receives
absent values (the top-10 table formatting, lines 219-229) returns the literal
string "No Time". -/
theorem inline_time_absent_no_time : inline_time_str none = "No Time" := rfl

/-- Claim C4: on every present duration the formatter computes the total whole
milliseconds (rounding down any sub-millisecond remainder) and prints
minutes unpadded, seconds zero-padded to width 2 and milliseconds zero-padded
to width 3; in particular 1 minute 23.456 s prints as "1:23.456" and
65 minutes 0.001 s prints as "65:00.001" with no rollover beyond minutes. -/
theorem format_lap_time_matches_spec :
    (∀ t : ℚ, format_lap_time (some t) = format_duration_spec t) ∧
    format_lap_time (some (83456 / 1000)) = "1:23.456" ∧
    format_lap_time (some (3900001 / 1000)) = "65:00.001" := by
  refine ⟨format_lap_time_eq_spec, ?_, ?_⟩
  · rw [format_lap_time_eq_spec]
    have h : ⌊(83456 / 1000 : ℚ) * 1000⌋ = 83456 := by norm_num
    unfold format_duration_spec
    rw [h]
    decide
  · rw [format_lap_time_eq_spec]
    have h : ⌊(3900001 / 1000 : ℚ) * 1000⌋ = 3900001 := by norm_num
    unfold format_duration_spec
    rw [h]
    decide

/-- Claim C5: the stint segmenter maps the empty lap list to the empty stint
list, not an error. -/
theorem segment_stints_empty : segment_stints [] = [] := rfl

/-- Claim C6, as frozen, fails on the code: a stint whose lap records carry a
missing compound keeps the null compound value in its `compound` field; the
code passes `stint_laps['Compound'].iloc[0]` through unchanged and never maps
it to an UNKNOWN category (only the colour falls back to gray). -/
theorem segment_stints_missing_compound_null :
    (segment_stints [⟨"VER", 1, 1, none⟩]).map (fun s => s.compound) = [none] ∧
    ∃ s ∈ segment_stints [⟨"VER", 1, 1, none⟩], s.compound = none := by
  decide

/-- Claim C6 (amended): the segmenter passes the stint's first record's
compound through unchanged: when all records carry compound `c` every produced
stint has compound `c` — so an UNKNOWN compound stays UNKNOWN and is never
nulled, but a missing (null) compound equally stays missing — and the colour
is the fallback-table lookup of that same value. -/
theorem segment_stints_compound_passthrough (laps : List LapRecord) (c : Option String)
    (h : ∀ r ∈ laps, r.compound = c) :
    ∀ s ∈ segment_stints laps, s.compound = c ∧ s.color = tyre_colors_get c := by
  intro s hs
  unfold segment_stints stint_infos at hs
  rw [List.mem_filterMap] at hs
  obtain ⟨id, _, hgroup⟩ := hs
  cases hfil : (sort_values laps).filter (fun r => r.stint == id) with
  | nil =>
    rw [hfil] at hgroup
    simp [stint_group_info] at hgroup
  | cons r rs =>
    rw [hfil] at hgroup
    have hr : r ∈ laps := by
      have hm : r ∈ (sort_values laps).filter (fun x => x.stint == id) := by
        rw [hfil]
        exact List.mem_cons_self _ _
      exact (List.perm_insertionSort lapLE laps).mem_iff.mp (List.mem_of_mem_filter hm)
    have hrc := h r hr
    simp only [stint_group_info] at hgroup
    obtain rfl := Option.some.inj hgroup
    exact ⟨hrc, by rw [hrc]⟩

/-- Claim C6 witness: a single UNKNOWN-compound lap yields the one stint with
compound UNKNOWN and the gray fallback colour. -/
theorem segment_stints_compound_passthrough_check :
    segment_stints [⟨"VER", 1, 1, some "UNKNOWN"⟩]
      = [⟨1, 1, some "UNKNOWN", "#808080"⟩] ∧
    (⟨1, 1, some "UNKNOWN", "#808080"⟩ : StintInfo).compound = some "UNKNOWN" := by
  constructor
  · decide
  · exact (segment_stints_compound_passthrough [⟨"VER", 1, 1, some "UNKNOWN"⟩]
      (some "UNKNOWN") (by decide) _ (by decide)).1

/-- Claim C7: the fallback compound-to-colour table is the fixed function
SOFT → red `#E8002D`, MEDIUM → yellow `#FFED00`, HARD → white `#FFFFFF`,
INTERMEDIATE → green `#00AA00`, WET → blue `#0080FF`, and every other
compound name gets the neutral gray default `#808080`. -/
theorem tyre_colors_get_spec :
    tyre_colors_get (some "SOFT") = "#E8002D" ∧
    tyre_colors_get (some "MEDIUM") = "#FFED00" ∧
    tyre_colors_get (some "HARD") = "#FFFFFF" ∧
    tyre_colors_get (some "INTERMEDIATE") = "#00AA00" ∧
    tyre_colors_get (some "WET") = "#0080FF" ∧
    ∀ c : String, c ∉ ["SOFT", "MEDIUM", "HARD", "INTERMEDIATE", "WET"] →
      tyre_colors_get (some c) = "#808080" := by
  refine ⟨by decide, by decide, by decide, by decide, by decide, ?_⟩
  intro c hc
  simp only [List.mem_cons, List.not_mem_nil, or_false, not_or] at hc
  obtain ⟨h1, h2, h3, h4, h5⟩ := hc
  have e1 : (c == "SOFT") = false := beq_eq_false_iff_ne.mpr h1
  have e2 : (c == "MEDIUM") = false := beq_eq_false_iff_ne.mpr h2
  have e3 : (c == "HARD") = false := beq_eq_false_iff_ne.mpr h3
  have e4 : (c == "INTERMEDIATE") = false := beq_eq_false_iff_ne.mpr h4
  have e5 : (c == "WET") = false := beq_eq_false_iff_ne.mpr h5
  simp [tyre_colors_get, tyre_colors, List.lookup, e1, e2, e3, e4, e5]

/-- Claim C7 witness: an unlisted compound name falls back to gray. -/
theorem tyre_colors_get_spec_check : tyre_colors_get (some "C5") = "#808080" :=
  tyre_colors_get_spec.2.2.2.2.2 "C5" (by decide)

/-- Claim C8, as frozen, fails on the code: an exception caught by the
whole-body handlers yields the messages "Error analyzing qualifying laps: ..."
and "Error creating tyre strategy visualization: ...", which are not prefixed
with the literal "Error:" (no colon directly after "Error"). -/
theorem error_message_colon_violation :
    compare_qualifying_laps ⟨2024, "Monaco", "Q", Except.error "boom", Except.ok "summary"⟩
      = "Error analyzing qualifying laps: " ++ "boom" ++ compare_error_hints ∧
    beginsWith "Error:"
      (compare_qualifying_laps ⟨2024, "Monaco", "Q", Except.error "boom", Except.ok "summary"⟩)
      = false ∧
    visualize_tyre_strategy ⟨2024, "Monaco", "R", Except.error "boom", Except.ok "summary"⟩
      = "Error creating tyre strategy visualization: " ++ "boom" ++ tyre_error_hints ∧
    beginsWith "Error:"
      (visualize_tyre_strategy ⟨2024, "Monaco", "R", Except.error "boom", Except.ok "summary"⟩)
      = false := by
  refine ⟨rfl, ?_, rfl, ?_⟩ <;> decide

/-- Claim C8 (amended): for every input and every exception raised inside
either operation, both operations return a string (the `except` handler's
message) and never propagate the fault; the message is prefixed with "Error"
(the handlers use "Error analyzing qualifying laps:" and "Error creating tyre
strategy visualization:", the data validations use "Error:"). -/
theorem operation_error_boundary
    (i : CompareInput) (e : String) (hi : compare_body i = Except.error e)
    (j : TyreInput) (f : String) (hj : visualize_body j = Except.error f) :
    compare_qualifying_laps i = "Error analyzing qualifying laps: " ++ e ++ compare_error_hints ∧
    beginsWith "Error" (compare_qualifying_laps i) = true ∧
    visualize_tyre_strategy j
      = "Error creating tyre strategy visualization: " ++ f ++ tyre_error_hints ∧
    beginsWith "Error" (visualize_tyre_strategy j) = true := by
  have h1 : compare_qualifying_laps i
      = "Error analyzing qualifying laps: " ++ e ++ compare_error_hints := by
    unfold compare_qualifying_laps
    rw [hi]
  have h2 : visualize_tyre_strategy j
      = "Error creating tyre strategy visualization: " ++ f ++ tyre_error_hints := by
    unfold visualize_tyre_strategy
    rw [hj]
  refine ⟨h1, ?_, h2, ?_⟩
  · rw [h1, String.append_assoc]
    exact beginsWith_append _ _ _ (by decide)
  · rw [h2, String.append_assoc]
    exact beginsWith_append _ _ _ (by decide)

/-- Claim C8 witness: the boundary behaviour at a concrete raised exception in
each operation. -/
theorem operation_error_boundary_check :
    compare_qualifying_laps ⟨2024, "Monza", "Q", Except.error "timeout", Except.ok "s"⟩
      = "Error analyzing qualifying laps: " ++ "timeout" ++ compare_error_hints ∧
    beginsWith "Error"
      (compare_qualifying_laps ⟨2024, "Monza", "Q", Except.error "timeout", Except.ok "s"⟩)
      = true ∧
    visualize_tyre_strategy ⟨2024, "Monza", "R", Except.error "timeout", Except.ok "s"⟩
      = "Error creating tyre strategy visualization: " ++ "timeout" ++ tyre_error_hints ∧
    beginsWith "Error"
      (visualize_tyre_strategy ⟨2024, "Monza", "R", Except.error "timeout", Except.ok "s"⟩)
      = true :=
  operation_error_boundary ⟨2024, "Monza", "Q", Except.error "timeout", Except.ok "s"⟩
    "timeout" rfl ⟨2024, "Monza", "R", Except.error "timeout", Except.ok "s"⟩ "timeout" rfl

/-- Claim C9: when the provider yields no results (a missing/None/empty
results frame, or an empty laps frame), or fewer than 3 drivers for
compare_qualifying_laps, or the tyre compound column is absent for
visualize_tyre_strategy, the operation returns its textual "Error:" report by
a normal early return of the try block — not by a thrown fault. -/
theorem degraded_error_reports
    (i₁ i₂ i₃ : CompareInput) (j₁ j₂ : TyreInput)
    (rs₂ rs₃ : List Unit) (d₁ d₂ : TyreData)
    (h₁ : i₁.load = Except.ok none)
    (h₂ : i₂.load = Except.ok (some rs₂)) (h₂0 : rs₂.length = 0)
    (h₃ : i₃.load = Except.ok (some rs₃)) (h₃a : ¬ rs₃.length = 0) (h₃b : rs₃.length < 3)
    (h₄ : j₁.load = Except.ok d₁) (h₄0 : d₁.laps.length = 0)
    (h₅ : j₂.load = Except.ok d₂) (h₅a : ¬ d₂.laps.length = 0)
    (h₅b : ¬ "Compound" ∈ d₂.columns) :
    (compare_body i₁ = Except.ok (no_results_message i₁.year i₁.race i₁.session) ∧
      compare_qualifying_laps i₁ = no_results_message i₁.year i₁.race i₁.session ∧
      beginsWith "Error:" (compare_qualifying_laps i₁) = true) ∧
    (compare_body i₂ = Except.ok (no_results_message i₂.year i₂.race i₂.session) ∧
      compare_qualifying_laps i₂ = no_results_message i₂.year i₂.race i₂.session ∧
      beginsWith "Error:" (compare_qualifying_laps i₂) = true) ∧
    (compare_body i₃ = Except.ok (insufficient_drivers_message rs₃.length) ∧
      compare_qualifying_laps i₃ = insufficient_drivers_message rs₃.length ∧
      beginsWith "Error:" (compare_qualifying_laps i₃) = true) ∧
    (visualize_body j₁ = Except.ok (no_lap_data_message j₁.year j₁.race j₁.session) ∧
      visualize_tyre_strategy j₁ = no_lap_data_message j₁.year j₁.race j₁.session ∧
      beginsWith "Error:" (visualize_tyre_strategy j₁) = true) ∧
    (visualize_body j₂ = Except.ok no_compound_message ∧
      visualize_tyre_strategy j₂ = no_compound_message ∧
      beginsWith "Error:" (visualize_tyre_strategy j₂) = true) := by
  have hb₁ : compare_body i₁ = Except.ok (no_results_message i₁.year i₁.race i₁.session) := by
    unfold compare_body
    rw [h₁]
    rfl
  have hb₂ : compare_body i₂ = Except.ok (no_results_message i₂.year i₂.race i₂.session) := by
    unfold compare_body
    rw [h₂]
    show (if rs₂.length = 0 then _ else _) = _
    rw [if_pos h₂0]
    rfl
  have hb₃ : compare_body i₃ = Except.ok (insufficient_drivers_message rs₃.length) := by
    unfold compare_body
    rw [h₃]
    show (if rs₃.length = 0 then _ else _) = _
    rw [if_neg h₃a, if_pos h₃b]
    rfl
  have hb₄ : visualize_body j₁ = Except.ok (no_lap_data_message j₁.year j₁.race j₁.session) := by
    unfold visualize_body
    rw [h₄]
    show (if d₁.laps.length = 0 then _ else _) = _
    rw [if_pos h₄0]
    rfl
  have hb₅ : visualize_body j₂ = Except.ok no_compound_message := by
    unfold visualize_body
    rw [h₅]
    show (if d₂.laps.length = 0 then _ else _) = _
    rw [if_neg h₅a, if_neg h₅b]
    rfl
  have ho₁ : compare_qualifying_laps i₁ = no_results_message i₁.year i₁.race i₁.session := by
    unfold compare_qualifying_laps
    rw [hb₁]
  have ho₂ : compare_qualifying_laps i₂ = no_results_message i₂.year i₂.race i₂.session := by
    unfold compare_qualifying_laps
    rw [hb₂]
  have ho₃ : compare_qualifying_laps i₃ = insufficient_drivers_message rs₃.length := by
    unfold compare_qualifying_laps
    rw [hb₃]
  have ho₄ : visualize_tyre_strategy j₁ = no_lap_data_message j₁.year j₁.race j₁.session := by
    unfold visualize_tyre_strategy
    rw [hb₄]
  have ho₅ : visualize_tyre_strategy j₂ = no_compound_message := by
    unfold visualize_tyre_strategy
    rw [hb₅]
  refine ⟨⟨hb₁, ho₁, ?_⟩, ⟨hb₂, ho₂, ?_⟩, ⟨hb₃, ho₃, ?_⟩, ⟨hb₄, ho₄, ?_⟩, ⟨hb₅, ho₅, ?_⟩⟩
  · rw [ho₁]; exact beginsWith_no_results _ _ _
  · rw [ho₂]; exact beginsWith_no_results _ _ _
  · rw [ho₃]; exact beginsWith_insufficient _
  · rw [ho₄]; exact beginsWith_no_lap_data _ _ _
  · rw [ho₅]; decide

/-- Claim C9 witness: all five degradation scenarios at concrete inputs. -/
theorem degraded_error_reports_check :
    compare_qualifying_laps ⟨2024, "Monaco", "Q", Except.ok none, Except.ok "S"⟩
      = no_results_message 2024 "Monaco" "Q" ∧
    compare_qualifying_laps ⟨2024, "Monaco", "Q", Except.ok (some []), Except.ok "S"⟩
      = no_results_message 2024 "Monaco" "Q" ∧
    compare_qualifying_laps ⟨2024, "Monaco", "Q", Except.ok (some [(), ()]), Except.ok "S"⟩
      = insufficient_drivers_message 2 ∧
    visualize_tyre_strategy ⟨2024, "Monaco", "R", Except.ok ⟨[], ["Compound"]⟩, Except.ok "S"⟩
      = no_lap_data_message 2024 "Monaco" "R" ∧
    visualize_tyre_strategy
        ⟨2024, "Monaco", "R", Except.ok ⟨[⟨"VER", 1, 1, none⟩], ["Time"]⟩, Except.ok "S"⟩
      = no_compound_message := by
  have h := degraded_error_reports
    ⟨2024, "Monaco", "Q", Except.ok none, Except.ok "S"⟩
    ⟨2024, "Monaco", "Q", Except.ok (some []), Except.ok "S"⟩
    ⟨2024, "Monaco", "Q", Except.ok (some [(), ()]), Except.ok "S"⟩
    ⟨2024, "Monaco", "R", Except.ok ⟨[], ["Compound"]⟩, Except.ok "S"⟩
    ⟨2024, "Monaco", "R", Except.ok ⟨[⟨"VER", 1, 1, none⟩], ["Time"]⟩, Except.ok "S"⟩
    [] [(), ()] ⟨[], ["Compound"]⟩ ⟨[⟨"VER", 1, 1, none⟩], ["Time"]⟩
    rfl rfl rfl rfl (by decide) (by decide) rfl rfl rfl (by decide) (by decide)
  exact ⟨h.1.2.1, h.2.1.2.1, h.2.2.1.2.1, h.2.2.2.1.2.1, h.2.2.2.2.2.1⟩

/-- Claim C10: on every duration value possessing a total_seconds
representation, the helper `format_lap_time` and the duplicated inline
formatting of the top-10 results table produce the identical string. -/
theorem format_helper_inline_agree (t : ℚ) :
    format_lap_time (some t) = inline_time_str (some t) := rfl

/-- Claim C10 witness: the two formatters agree at a concrete duration. -/
theorem format_helper_inline_agree_check :
    format_lap_time (some (83456 / 1000)) = inline_time_str (some (83456 / 1000)) :=
  format_helper_inline_agree (83456 / 1000)
